import Mathlib

/-!
Verification development for the HemeWeb job-lifecycle orchestrator
(`src/jobs/models.py`): the `run_setup` and `run_job` task bodies, the
job status state machine, the path resolvers, the log-output cache
(`Job.get_output`) and the instance-type table (`Job.get_instance_id`).

The Python code is shallowly embedded: a job record is a structure of its
mutable fields, each task body is a pure function from the external
commands' exit codes and the incoming record to the outgoing record
together with a trace of its observable effects (command launches and
saves to the durable store, in program order).
-/

namespace HemeWeb

/-! ## Status constants (class attributes of `Job`, models.py lines 165-170) -/

def ADDED : Nat := 1
def QUEUED : Nat := 2
def RUNNING : Nat := 10
def DONE : Nat := 3
def PREPROCESSING : Nat := 4
def FAILED : Nat := 0

/-- The mutable fields of a `Job` row that the orchestrator touches:
`status` plus the five file-artifact references. -/
structure JobRecord where
  status : Nat
  configuration_file : String
  input_file : String
  stl_file : String
  profile_file : String
  output_file : String
deriving DecidableEq, Repr

/-- The external commands the two task bodies launch, in order of
appearance in models.py: the setup tool (`hemelb-setup-nogui`), the
ansible provisioning/execution playbook, the
`GmyUnstructuredGridReader.py` VTU conversion, and the
`ExtractedPropertyUnstructuredGridReader.py` merge. -/
inductive StageId
  | setupTool
  | provision
  | vtuConvert
  | extractMerge
deriving DecidableEq, Repr

/-- How a `save` call writes the durable store: `full` is a bare
`job_instance.save()` (all fields); `statusOnly` is
`save(update_fields=['status'])` (the status field, and the
auto-updated timestamp). -/
inductive SaveMode
  | full
  | statusOnly
deriving DecidableEq, Repr

/-- One observable effect of a task body: launching an external command,
or persisting the record with the status it carries at that moment. -/
inductive Event
  | exec (stage : StageId)
  | persist (st : Nat) (mode : SaveMode)
deriving DecidableEq, Repr

/-! ## Python `str.replace`, embedded on character lists

`str.replace(old, new)` scans left to right and rewrites every
non-overlapping occurrence of `old`.  The recursion is driven by a fuel
argument (an upper bound on the number of scan steps, each of which
consumes at least one character when the pattern is nonempty) so that
the definition is structural and computes by `decide`/`rfl`. -/

def replaceAux (pat repl : List Char) : Nat → List Char → List Char
  | 0, s => s
  | _ + 1, [] => []
  | fuel + 1, c :: rest =>
    if pat <+: c :: rest then
      repl ++ replaceAux pat repl fuel (rest.drop (pat.length - 1))
    else
      c :: replaceAux pat repl fuel rest

/-- Python's `s.replace(pat, repl)` for a nonempty pattern (the only way
models.py uses it; an empty pattern is left as the identity here). -/
def pyReplace (s pat repl : String) : String :=
  if pat.isEmpty then s
  else ⟨replaceAux pat.toList repl.toList s.toList.length s.toList⟩

/-! ## The two task bodies (models.py lines 26-46 and 49-125)

Each returns the record as left in memory at the end of the task, and
the trace of observable effects in program order.  The translation keeps
the source's exit-code tests exactly: stage 1 of `run_job` fails on
`completed != 0`, while stages 2 and 3 branch to `FAILED` on
`completed == 0` (lines 107 and 119 of the source). -/

/-- `run_setup` (models.py lines 26-46): launch the setup tool; on exit
code 0 derive the `.xml`/`.gmy` artifact names from the stl name via
`str.replace` and set status `ADDED`, otherwise set status `FAILED`;
either way finish with a full `save()`. -/
def run_setup (exitCode : Int) (j : JobRecord) : JobRecord × List Event :=
  if exitCode = 0 then
    ({ j with
        configuration_file := pyReplace j.stl_file ".stl" ".xml",
        input_file := pyReplace j.stl_file ".stl" ".gmy",
        status := ADDED },
      [Event.exec StageId.setupTool, Event.persist ADDED SaveMode.full])
  else
    ({ j with status := FAILED },
      [Event.exec StageId.setupTool, Event.persist FAILED SaveMode.full])

/-- `run_job` (models.py lines 49-125): persist status `RUNNING` with
`save(update_fields=['status'])`, launch the provisioning command, and
on `completed != 0` persist `FAILED` and return.  Then launch the VTU
conversion and, as written in the source (line 107), branch to `FAILED`
on `completed == 0`; then likewise the extracted-property merge
(line 119); otherwise set `DONE` and finish with a full `save()`. -/
def run_job (e1 e2 e3 : Int) (j : JobRecord) : JobRecord × List Event :=
  if e1 ≠ 0 then
    ({ j with status := FAILED },
      [Event.persist RUNNING SaveMode.statusOnly, Event.exec StageId.provision,
        Event.persist FAILED SaveMode.statusOnly])
  else if e2 = 0 then
    ({ j with status := FAILED },
      [Event.persist RUNNING SaveMode.statusOnly, Event.exec StageId.provision,
        Event.exec StageId.vtuConvert,
        Event.persist FAILED SaveMode.statusOnly])
  else if e3 = 0 then
    ({ j with status := FAILED },
      [Event.persist RUNNING SaveMode.statusOnly, Event.exec StageId.provision,
        Event.exec StageId.vtuConvert, Event.exec StageId.extractMerge,
        Event.persist FAILED SaveMode.statusOnly])
  else
    ({ j with status := DONE },
      [Event.persist RUNNING SaveMode.statusOnly, Event.exec StageId.provision,
        Event.exec StageId.vtuConvert, Event.exec StageId.extractMerge,
        Event.persist DONE SaveMode.full])

/-! ## Trace observers -/

/-- The status carried by the last `persist` event of a trace, if any:
the durably stored status after the trace has run (relative to whatever
was stored before it). -/
def lastPersisted : List Event → Option Nat
  | [] => none
  | Event.persist st _ :: r => some ((lastPersisted r).getD st)
  | Event.exec _ :: r => lastPersisted r

/-- How many times a given external command is launched in a trace. -/
def execCount (s : StageId) : List Event → Nat
  | [] => 0
  | Event.exec s2 :: r => (if s2 = s then 1 else 0) + execCount s r
  | Event.persist _ _ :: r => execCount s r

/-- `true` iff the trace contains no `persist` event at all. -/
def noPersist : List Event → Bool
  | [] => true
  | Event.persist _ _ :: _ => false
  | Event.exec _ :: r => noPersist r

/-- `true` iff after every `persist` of a terminal status (`DONE` or
`FAILED`) the trace contains no further `persist` event. -/
def terminalPersistFinal : List Event → Bool
  | [] => true
  | Event.persist st _ :: r =>
    (if st = DONE ∨ st = FAILED then noPersist r else true) && terminalPersistFinal r
  | Event.exec _ :: r => terminalPersistFinal r

/-! ## Path resolvers (models.py lines 201-231)

`os.path.join` for two POSIX components; the resolvers are parameterised
by the `JOB_FILES_UPLOAD_DIR` setting and the job id (its hex form for
directories, its dashed string form for the output file names). -/

def joinPath (a b : String) : String :=
  if b.startsWith "/" then b
  else if a = "" ∨ a.endsWith "/" then a ++ b
  else a ++ "/" ++ b

def get_job_directory_path (uploadDir idHex : String) : String :=
  joinPath uploadDir idHex

def get_input_directory_path (uploadDir idHex : String) : String :=
  joinPath (get_job_directory_path uploadDir idHex) "inputs"

def get_log_directory_path (uploadDir idHex : String) : String :=
  joinPath (get_job_directory_path uploadDir idHex) "logs"

def get_result_directory_path (uploadDir idHex : String) : String :=
  joinPath (get_job_directory_path uploadDir idHex) "result"

def get_output_path (uploadDir idHex idStr : String) : String :=
  joinPath (get_result_directory_path uploadDir idHex) (idStr ++ ".vtu")

def get_packaged_output_path (uploadDir idHex idStr : String) : String :=
  joinPath (get_result_directory_path uploadDir idHex) (idStr ++ ".tar.gz")

def get_log_file_path (uploadDir idHex logType : String) : String :=
  joinPath (get_log_directory_path uploadDir idHex) logType

/-- `Job.get_result_extracted_directory_path` (models.py lines 217-219)
joins `'Extracted/*'` onto the result of calling **itself**, so the
Python is unboundedly recursive.  The embedding makes the recursion
depth explicit: `fuel` is the remaining recursion budget and `none`
stands for exhausting it (Python's `RecursionError`). -/
def get_result_extracted_directory_path (uploadDir idHex : String) : Nat → Option String
  | 0 => none
  | n + 1 =>
    (get_result_extracted_directory_path uploadDir idHex n).map
      (fun p => joinPath p "Extracted/*")

/-! ## Instance table and log cache (models.py lines 237-270) -/

/-- `Job.get_instance_id` (models.py lines 237-245): the
`instance_type → EC2 instance` table; the if-chain has no final else, so
Python returns `None` off the table. -/
def get_instance_id (instance_type : Int) : Option String :=
  if instance_type = 2 then some "c4.large"
  else if instance_type = 4 then some "c4.xlarge"
  else if instance_type = 8 then some "c4.2xlarge"
  else if instance_type = 16 then some "c4.4xlarge"
  else none

/-- One value stored in the cache backend: the log content together with
the TTL (`timeout=` argument) it was stored with. -/
structure CacheEntry where
  content : String
  timeout : Nat
deriving DecidableEq, Repr

/-- Reading an absent log file: `open` raises `IOError`, which
`get_output` does not catch. -/
inductive LogReadError
  | fileAbsent
deriving DecidableEq, Repr

/-- The observable outcome of one `get_output` call: the returned
string, the cache entry for the key after the call, and whether the log
file was read. -/
structure GetOutputResult where
  output : String
  cacheAfter : Option CacheEntry
  fileRead : Bool
deriving DecidableEq, Repr

/-- `Job.get_output` (models.py lines 250-270) for one key: `cached` is
the cache backend's entry for `"<id>:log:<type>"` before the call and
`fileContent` the log file's content (`none` when the file is absent).
On a hit the cached output is returned directly; on a miss the file is
read in full and stored with `timeout=5` while the status is neither
`DONE` nor `FAILED`, `timeout=5000` otherwise. -/
def get_output (status : Nat) (cached : Option CacheEntry)
    (fileContent : Option String) : Except LogReadError GetOutputResult :=
  match cached with
  | some entry => .ok ⟨entry.content, some entry, false⟩
  | none =>
    match fileContent with
    | none => .error .fileAbsent
    | some content =>
      if status ≠ DONE ∧ status ≠ FAILED then
        .ok ⟨content, some ⟨content, 5⟩, true⟩
      else
        .ok ⟨content, some ⟨content, 5000⟩, true⟩

/-! ## Fixed data and sample records used by concrete statements -/

/-- The characters of the pattern `'.stl'` that `run_setup` rewrites. -/
def stlPat : List Char := ['.', 's', 't', 'l']

/-- A job that already reached the terminal status `DONE`. -/
def doneJob : JobRecord :=
  { status := DONE, configuration_file := "", input_file := "",
    stl_file := "a.stl", profile_file := "a.pr2", output_file := "" }

/-- A job whose stl name contains `'.stl'` twice: `X = "a.stl"` in the
form `X.stl`. -/
def stlTwiceJob : JobRecord :=
  { status := ADDED, configuration_file := "", input_file := "",
    stl_file := "a.stl.stl", profile_file := "a.pr2", output_file := "" }

/-- The spec's sample job: status `Added`, stl `foo.stl`, profile
`foo.pr2`. -/
def fooJob : JobRecord :=
  { status := ADDED, configuration_file := "", input_file := "",
    stl_file := "foo.stl", profile_file := "foo.pr2", output_file := "" }

/-! ## Helper lemmas about `replaceAux` and the `'.stl'` pattern -/

lemma replaceAux_nil (pat repl : List Char) (n : Nat) :
    replaceAux pat repl n [] = [] := by
  cases n <;> rfl

/-- Scanning `X ++ pat` with enough fuel rewrites exactly the final
copy of the pattern, provided no scan position inside `X` sees the
pattern. -/
lemma replaceAux_append_of_no_occurrence (pat repl : List Char) (hne : pat ≠ []) :
    ∀ X : List Char, (∀ t, t ≠ [] → t <:+ X → ¬ pat <+: t ++ pat) →
      replaceAux pat repl (X ++ pat).length (X ++ pat) = X ++ repl := by
  intro X
  induction X with
  | nil =>
    intro _
    obtain ⟨c, ps, rfl⟩ : ∃ c ps, pat = c :: ps := by
      cases pat with
      | nil => exact absurd rfl hne
      | cons c ps => exact ⟨c, ps, rfl⟩
    simp only [List.nil_append, List.length_cons]
    rw [replaceAux, if_pos (List.prefix_refl _)]
    simp [replaceAux_nil]
  | cons c X' ih =>
    intro h
    have hc : ¬ pat <+: (c :: X') ++ pat :=
      h (c :: X') (List.cons_ne_nil c X') (List.suffix_refl _)
    simp only [List.cons_append, List.length_cons]
    rw [replaceAux, if_neg (by simpa using hc)]
    have := ih (fun t ht hsuf => h t ht (hsuf.trans (List.suffix_cons c X')))
    rw [this]

/-- `'.stl'` cannot straddle the boundary of `t ++ '.stl'`: if it is a
prefix of that list for nonempty `t`, it already starts `t`. -/
lemma stl_no_straddle :
    ∀ t : List Char, t ≠ [] → stlPat <+: t ++ stlPat → stlPat <+: t := by
  intro t
  match t with
  | [] => intro h _; exact absurd rfl h
  | [a] =>
    intro _ h
    simp only [stlPat, List.cons_append, List.nil_append, List.cons_prefix_cons] at h
    exact absurd h.2.1 (by decide)
  | [a, b] =>
    intro _ h
    simp only [stlPat, List.cons_append, List.nil_append, List.cons_prefix_cons] at h
    exact absurd h.2.2.1 (by decide)
  | [a, b, c] =>
    intro _ h
    simp only [stlPat, List.cons_append, List.nil_append, List.cons_prefix_cons] at h
    exact absurd h.2.2.2.1 (by decide)
  | a :: b :: c :: d :: rest =>
    intro _ h
    simp only [stlPat, List.cons_append, List.cons_prefix_cons] at h
    obtain ⟨rfl, rfl, rfl, rfl, -⟩ := h
    exact ⟨rest, rfl⟩

lemma no_straddle_of_not_contains (X : List Char) (hX : ¬ stlPat <:+: X) :
    ∀ t, t ≠ [] → t <:+ X → ¬ stlPat <+: t ++ stlPat := by
  intro t ht hsuf hpre
  exact hX ((stl_no_straddle t ht hpre).isInfix.trans hsuf.isInfix)

/-- When `X` does not contain `'.stl'`, Python's
`(X + ".stl").replace(".stl", repl)` is `X + repl`. -/
lemma pyReplace_append_stl (X repl : String) (hX : ¬ stlPat <:+: X.toList) :
    pyReplace (X ++ ".stl") ".stl" repl = X ++ repl := by
  obtain ⟨xl⟩ := X
  obtain ⟨rl⟩ := repl
  show pyReplace (String.mk (xl ++ stlPat)) ".stl" (String.mk rl)
      = String.mk (xl ++ rl)
  unfold pyReplace
  rw [if_neg (by decide)]
  exact congrArg String.mk
    (replaceAux_append_of_no_occurrence stlPat rl (by decide) xl
      (no_straddle_of_not_contains xl hX))

/-! ## Helper lemmas about traces -/

/-- If a trace's last persisted status is `st` then some `persist st`
event occurs in it. -/
lemma lastPersisted_eq_some (l : List Event) :
    ∀ st, lastPersisted l = some st → ∃ m, Event.persist st m ∈ l := by
  induction l with
  | nil => intro st h; simp [lastPersisted] at h
  | cons e r ih =>
    intro st h
    cases e with
    | exec s =>
      simp only [lastPersisted] at h
      obtain ⟨m, hm⟩ := ih st h
      exact ⟨m, List.mem_cons_of_mem _ hm⟩
    | persist st2 m2 =>
      simp only [lastPersisted, Option.some.injEq] at h
      cases hr : lastPersisted r with
      | none =>
        rw [hr] at h
        simp only [Option.getD_none] at h
        exact ⟨m2, h ▸ List.mem_cons_self _ _⟩
      | some st3 =>
        rw [hr] at h
        simp only [Option.getD_some] at h
        obtain ⟨m, hm⟩ := ih st3 hr
        exact ⟨m, h ▸ List.mem_cons_of_mem _ hm⟩

/-- In a trace that persists `RUNNING`, then launches the provisioning
command, and afterwards persists only terminal statuses, every prefix
containing the launch has `RUNNING`, `DONE` or `FAILED` as its last
persisted status. -/
lemma lastPersisted_prefix_terminal (rest : List Event)
    (hrest : ∀ st m, Event.persist st m ∈ rest → st = DONE ∨ st = FAILED) :
    ∀ p, p <+: (Event.persist RUNNING SaveMode.statusOnly ::
        Event.exec StageId.provision :: rest) →
      Event.exec StageId.provision ∈ p →
      (lastPersisted p = some RUNNING ∨ lastPersisted p = some DONE ∨
        lastPersisted p = some FAILED) := by
  intro p hp hmem
  match p with
  | [] => cases hmem
  | e :: p' =>
    rw [List.cons_prefix_cons] at hp
    obtain ⟨rfl, hp'⟩ := hp
    match p' with
    | [] => simp at hmem
    | e2 :: p'' =>
      rw [List.cons_prefix_cons] at hp'
      obtain ⟨rfl, hp''⟩ := hp'
      cases hr : lastPersisted p'' with
      | none => left; simp [lastPersisted, hr]
      | some st =>
        obtain ⟨m, hm⟩ := lastPersisted_eq_some p'' st hr
        rcases hrest st m (hp''.subset hm) with h | h
        · right; left; simp [lastPersisted, hr, h]
        · right; right; simp [lastPersisted, hr, h]

/-! ## Claim theorems -/

/-- C1: as written, stages 2 and 3 of `run_job` treat exit code 0 as
failure (models.py lines 107 and 119 test `completed == 0`).  With all
three stage commands exiting 0 the final status is `FAILED`, not `Done`,
and the extracted-property merge is never launched; conversely, with
stages 2 and 3 exiting non-zero the final status is `DONE`. -/
theorem run_job_stage_gating_inverted (j : JobRecord) :
    (run_job 0 0 0 j).1.status = FAILED ∧
    execCount StageId.extractMerge (run_job 0 0 0 j).2 = 0 ∧
    (run_job 0 1 1 j).1.status = DONE := by
  refine ⟨rfl, rfl, rfl⟩

/-- C2 counterexample: `run_setup` never reads the incoming status, so
invoked on a job already in the terminal status `DONE` (setup tool
exiting 0) it overwrites the status with `ADDED`. -/
theorem run_setup_overwrites_terminal_status :
    doneJob.status = DONE ∧ (run_setup 0 doneJob).1.status = ADDED ∧
    ADDED ≠ DONE := by decide

/-- C2 (amended): within a single execution of `run_setup` or
`run_job`, once a terminal status (`DONE` or `FAILED`) is persisted, no
further persist occurs in that execution. -/
theorem terminal_persist_is_last (e e1 e2 e3 : Int) (j k : JobRecord) :
    terminalPersistFinal (run_setup e j).2 = true ∧
    terminalPersistFinal (run_job e1 e2 e3 k).2 = true := by
  constructor
  · by_cases h : e = 0
    · simp only [run_setup, if_pos h]; decide
    · simp only [run_setup, if_neg h]; decide
  · by_cases h1 : e1 ≠ 0
    · simp only [run_job, if_pos h1]; decide
    · simp only [run_job, if_neg h1]
      by_cases h2 : e2 = 0
      · simp only [if_pos h2]; decide
      · simp only [if_neg h2]
        by_cases h3 : e3 = 0
        · simp only [if_pos h3]; decide
        · simp only [if_neg h3]; decide

/-- C3: in every execution of `run_job` the first two events are the
status-only persist of `RUNNING` followed by the provisioning launch,
and every prefix of the trace containing the launch (an interruption
point after it) has `RUNNING`, `DONE` or `FAILED` — never `ADDED` or
`QUEUED`, and never nothing — as its last persisted status. -/
theorem running_persisted_before_provision (e1 e2 e3 : Int) (j : JobRecord)
    (p : List Event) (hp : p <+: (run_job e1 e2 e3 j).2)
    (hmem : Event.exec StageId.provision ∈ p) :
    (run_job e1 e2 e3 j).2.take 2 =
      [Event.persist RUNNING SaveMode.statusOnly, Event.exec StageId.provision] ∧
    (lastPersisted p = some RUNNING ∨ lastPersisted p = some DONE ∨
      lastPersisted p = some FAILED) := by
  by_cases h1 : e1 ≠ 0
  · simp only [run_job, if_pos h1] at hp ⊢
    refine ⟨rfl, lastPersisted_prefix_terminal _ ?_ p hp hmem⟩
    intro st m hm
    simp at hm
    exact Or.inr hm.1
  · simp only [run_job, if_neg h1] at hp ⊢
    by_cases h2 : e2 = 0
    · simp only [if_pos h2] at hp ⊢
      refine ⟨rfl, lastPersisted_prefix_terminal _ ?_ p hp hmem⟩
      intro st m hm
      simp at hm
      exact Or.inr hm.1
    · simp only [if_neg h2] at hp ⊢
      by_cases h3 : e3 = 0
      · simp only [if_pos h3] at hp ⊢
        refine ⟨rfl, lastPersisted_prefix_terminal _ ?_ p hp hmem⟩
        intro st m hm
        simp at hm
        exact Or.inr hm.1
      · simp only [if_neg h3] at hp ⊢
        refine ⟨rfl, lastPersisted_prefix_terminal _ ?_ p hp hmem⟩
        intro st m hm
        simp at hm
        exact Or.inl hm.1

/-- C3 witness: the theorem at exit codes `(1, 0, 0)` and the prefix of
the trace that ends right after the provisioning launch. -/
theorem running_persisted_before_provision_witness :
    (run_job 1 0 0 fooJob).2.take 2 =
      [Event.persist RUNNING SaveMode.statusOnly, Event.exec StageId.provision] ∧
    (lastPersisted [Event.persist RUNNING SaveMode.statusOnly,
        Event.exec StageId.provision] = some RUNNING ∨
      lastPersisted [Event.persist RUNNING SaveMode.statusOnly,
        Event.exec StageId.provision] = some DONE ∨
      lastPersisted [Event.persist RUNNING SaveMode.statusOnly,
        Event.exec StageId.provision] = some FAILED) :=
  running_persisted_before_provision 1 0 0 fooJob
    [Event.persist RUNNING SaveMode.statusOnly, Event.exec StageId.provision]
    (by decide) (by decide)

/-- C4 counterexample: for the stl name `"a.stl" ++ ".stl"` (so
`X = "a.stl"`), Python's `replace` rewrites *both* occurrences, yielding
`"a.xml.xml"` rather than the claimed `"a.stl" ++ ".xml"`. -/
theorem run_setup_replaces_every_stl_occurrence :
    stlTwiceJob.stl_file = "a.stl" ++ ".stl" ∧
    (run_setup 0 stlTwiceJob).1.configuration_file = "a.xml.xml" ∧
    "a.xml.xml" ≠ "a.stl" ++ ".xml" := by decide

/-- C4 (amended): for every stl path `X.stl` where `X` does not contain
the substring `'.stl'`, the success branch of `run_setup` assigns the
configuration-file path exactly `X.xml` and the input-file path exactly
`X.gmy`. -/
theorem run_setup_path_derivation (X : String) (j : JobRecord)
    (hX : ¬ stlPat <:+: X.toList) (hstl : j.stl_file = X ++ ".stl") :
    (run_setup 0 j).1.configuration_file = X ++ ".xml" ∧
    (run_setup 0 j).1.input_file = X ++ ".gmy" := by
  simp only [run_setup, if_pos rfl]
  rw [hstl]
  exact ⟨pyReplace_append_stl X ".xml" hX, pyReplace_append_stl X ".gmy" hX⟩

/-- C4 witness: the amended theorem at `X = "foo"`. -/
theorem run_setup_path_derivation_witness :
    (run_setup 0 fooJob).1.configuration_file = "foo" ++ ".xml" ∧
    (run_setup 0 fooJob).1.input_file = "foo" ++ ".gmy" :=
  run_setup_path_derivation "foo" fooJob (by decide) (by decide)

/-- C5: for a job in status `ADDED` with stl and profile uploaded,
`run_setup` with exit code 0 leaves status `ADDED` with the
configuration and input files derived from the stl name and the other
artifact fields unchanged; with any non-zero exit code it leaves status
`FAILED` and all five artifact fields unchanged. -/
theorem run_setup_outcome (j : JobRecord)
    (_hst : j.status = ADDED) (_hstl : j.stl_file ≠ "") (_hpr : j.profile_file ≠ "") :
    ((run_setup 0 j).1.status = ADDED ∧
      (run_setup 0 j).1.configuration_file = pyReplace j.stl_file ".stl" ".xml" ∧
      (run_setup 0 j).1.input_file = pyReplace j.stl_file ".stl" ".gmy" ∧
      (run_setup 0 j).1.stl_file = j.stl_file ∧
      (run_setup 0 j).1.profile_file = j.profile_file ∧
      (run_setup 0 j).1.output_file = j.output_file) ∧
    ∀ e : Int, e ≠ 0 →
      ((run_setup e j).1.status = FAILED ∧
        (run_setup e j).1.configuration_file = j.configuration_file ∧
        (run_setup e j).1.input_file = j.input_file ∧
        (run_setup e j).1.stl_file = j.stl_file ∧
        (run_setup e j).1.profile_file = j.profile_file ∧
        (run_setup e j).1.output_file = j.output_file) := by
  constructor
  · simp [run_setup]
  · intro e he
    simp [run_setup, he]

/-- C5 witness: the spec's scenario job (`foo.stl`, `foo.pr2`): exit 0
gives `ADDED` with `foo.xml`/`foo.gmy`; exit 1 gives `FAILED` with the
configuration file unchanged. -/
theorem run_setup_outcome_witness :
    (run_setup 0 fooJob).1.status = ADDED ∧
    (run_setup 0 fooJob).1.configuration_file = "foo.xml" ∧
    (run_setup 0 fooJob).1.input_file = "foo.gmy" ∧
    (run_setup 1 fooJob).1.status = FAILED ∧
    (run_setup 1 fooJob).1.configuration_file = fooJob.configuration_file :=
  ⟨(run_setup_outcome fooJob rfl (by decide) (by decide)).1.1,
    by rw [(run_setup_outcome fooJob rfl (by decide) (by decide)).1.2.1]; decide,
    by rw [(run_setup_outcome fooJob rfl (by decide) (by decide)).1.2.2.1]; decide,
    ((run_setup_outcome fooJob rfl (by decide) (by decide)).2 1 (by decide)).1,
    ((run_setup_outcome fooJob rfl (by decide) (by decide)).2 1 (by decide)).2.1⟩

/-- C6: `get_output` on a cache hit returns the cached content with the
cache unchanged and the file unread (for every file content); on a miss
it reads the file and stores its content with TTL 5 while the status is
neither `DONE` nor `FAILED`, and TTL 5000 once it is. -/
theorem get_output_cache_spec (st : Nat) (entry : CacheEntry) (content : String) :
    (∀ fileContent, get_output st (some entry) fileContent =
      .ok ⟨entry.content, some entry, false⟩) ∧
    (st ≠ DONE ∧ st ≠ FAILED →
      get_output st none (some content) = .ok ⟨content, some ⟨content, 5⟩, true⟩) ∧
    (st = DONE ∨ st = FAILED →
      get_output st none (some content) = .ok ⟨content, some ⟨content, 5000⟩, true⟩) := by
  refine ⟨fun _ => rfl, fun h => ?_, fun h => ?_⟩
  · simp only [get_output, if_pos h]
  · have : ¬ (st ≠ DONE ∧ st ≠ FAILED) := by
      rcases h with h | h <;> simp [h]
    simp only [get_output, if_neg this]

/-- C7 counterexample: `run_setup`'s only save (models.py line 46) is a
bare `save()` — a full write of all fields, not a status-only partial
update. -/
theorem run_setup_persists_full_save :
    (run_setup 0 doneJob).2 =
      [Event.exec StageId.setupTool, Event.persist ADDED SaveMode.full] ∧
    SaveMode.full ≠ SaveMode.statusOnly := by decide

/-- C7 (amended): in `run_job` the `RUNNING` and `FAILED` transitions
are persisted with status-only partial updates and only the final
`DONE` transition with a full save; in `run_setup` both transitions are
persisted with full saves. -/
theorem persist_modes (e e1 e2 e3 : Int) (j k : JobRecord) :
    (∀ st m, Event.persist st m ∈ (run_setup e j).2 → m = SaveMode.full) ∧
    (∀ st m, Event.persist st m ∈ (run_job e1 e2 e3 k).2 →
      ((st = DONE ∧ m = SaveMode.full) ∨
        (st ≠ DONE ∧ m = SaveMode.statusOnly))) := by
  constructor
  · intro st m hm
    by_cases h : e = 0
    · simp only [run_setup, if_pos h] at hm
      simp at hm
      exact hm.2
    · simp only [run_setup, if_neg h] at hm
      simp at hm
      exact hm.2
  · intro st m hm
    by_cases h1 : e1 ≠ 0
    · simp only [run_job, if_pos h1] at hm
      simp at hm
      rcases hm with ⟨rfl, rfl⟩ | ⟨rfl, rfl⟩ <;> exact Or.inr ⟨by decide, rfl⟩
    · simp only [run_job, if_neg h1] at hm
      by_cases h2 : e2 = 0
      · simp only [if_pos h2] at hm
        simp at hm
        rcases hm with ⟨rfl, rfl⟩ | ⟨rfl, rfl⟩ <;> exact Or.inr ⟨by decide, rfl⟩
      · simp only [if_neg h2] at hm
        by_cases h3 : e3 = 0
        · simp only [if_pos h3] at hm
          simp at hm
          rcases hm with ⟨rfl, rfl⟩ | ⟨rfl, rfl⟩ <;> exact Or.inr ⟨by decide, rfl⟩
        · simp only [if_neg h3] at hm
          simp at hm
          rcases hm with ⟨rfl, rfl⟩ | ⟨rfl, rfl⟩
          · exact Or.inr ⟨by decide, rfl⟩
          · exact Or.inl ⟨rfl, rfl⟩

/-- C8: `get_result_extracted_directory_path` recurses on itself
(models.py line 218), so it produces no path at any recursion depth —
in Python the call never returns and dies with `RecursionError`. -/
theorem get_result_extracted_never_returns (uploadDir idHex : String) (fuel : Nat) :
    get_result_extracted_directory_path uploadDir idHex fuel = none := by
  induction fuel with
  | zero => rfl
  | succ n ih => simp [get_result_extracted_directory_path, ih]

/-- C9: on a cache miss with the log file absent, `get_output` signals
a distinct read-failure error (the uncaught `IOError` from `open`), and
returns no value at all — in particular not the empty string. -/
theorem get_output_absent_file_errors (st : Nat) :
    get_output st none none = .error LogReadError.fileAbsent ∧
    ∀ r : GetOutputResult, get_output st none none ≠ Except.ok r := by
  refine ⟨rfl, fun r h => ?_⟩
  simp [get_output] at h

/-- C10: `get_instance_id` maps instance types 2, 4, 8, 16 to the four
`c4` instance names and every other instance type to `none`. -/
theorem get_instance_id_table :
    get_instance_id 2 = some "c4.large" ∧
    get_instance_id 4 = some "c4.xlarge" ∧
    get_instance_id 8 = some "c4.2xlarge" ∧
    get_instance_id 16 = some "c4.4xlarge" ∧
    ∀ t : Int, t ≠ 2 → t ≠ 4 → t ≠ 8 → t ≠ 16 → get_instance_id t = none := by
  refine ⟨rfl, rfl, rfl, rfl, fun t h2 h4 h8 h16 => ?_⟩
  simp only [get_instance_id, if_neg h2, if_neg h4, if_neg h8, if_neg h16]

end HemeWeb
